import Mathlib

/-!
Shallow embedding of the Book Tracker API (src/index.js): an in-memory
registry of books with seven HTTP handlers (list all, get by id, create,
update, delete, list completed, search by title), plus the Express-style
first-match routing over the registration order that appears in the source.
JavaScript numbers are modelled as Int, `parseInt` as an Option Int
(none standing for NaN), truthiness of optional string/number payload
fields by dedicated predicates, and the untyped `completed` payload value
by a small JSON-value type.
-/

/-- Dynamically typed JSON-ish value, used for the `completed` field: the
source never validates its type, so the registry can store any payload
value there verbatim. -/
inductive JVal where
  | vBool : Bool → JVal
  | vNum : Int → JVal
  | vStr : String → JVal
  | vNull : JVal
  deriving Repr, DecidableEq

/-- A book record, as stored in the `books` array of src/index.js.
`createdAt` is a timestamp in milliseconds since the epoch. -/
structure Book where
  id : Int
  title : String
  author : String
  year : Int
  completed : JVal
  createdAt : Int
  deriving Repr, DecidableEq

/-- Payload of a response body: either a single book or a list of books
(the `data` field of the JSON envelope). -/
inductive RData where
  | book : Book → RData
  | list : List Book → RData
  deriving Repr, DecidableEq

/-- HTTP response: status code plus the JSON envelope
`\x7bsuccess, data?, message?\x7d` produced by the handlers. -/
structure Response where
  status : Nat
  success : Bool
  data : Option RData
  message : Option String
  deriving Repr, DecidableEq

/-- JavaScript truthiness of an optional string payload field:
`undefined` and the empty string are falsy. -/
def truthyS : Option String → Bool
  | some t => t ≠ ""
  | none => false

/-- JavaScript truthiness of an optional integer payload field:
`undefined` and 0 are falsy. -/
def truthyI : Option Int → Bool
  | some y => y ≠ 0
  | none => false

/-- Drop leading whitespace, as `parseInt` does before scanning. -/
def skipWs : List Char → List Char
  | [] => []
  | c :: cs => if c.isWhitespace then skipWs cs else c :: cs

/-- Longest leading run of decimal digits. -/
def leadDigits : List Char → List Char
  | [] => []
  | c :: cs => if c.isDigit then c :: leadDigits cs else []

/-- Decimal value of a digit string. -/
def digitsToNat (ds : List Char) : Nat :=
  ds.foldl (fun a c => a * 10 + (c.toNat - 48)) 0

/-- Hexadecimal digit, as ECMAScript parseInt accepts after a 0x/0X
prefix: 0-9, a-f, A-F. -/
def isHexDigitJS (c : Char) : Bool :=
  c.isDigit || ('a' ≤ c && c ≤ 'f') || ('A' ≤ c && c ≤ 'F')

/-- Longest leading run of hexadecimal digits. -/
def leadHexDigits : List Char → List Char
  | [] => []
  | c :: cs => if isHexDigitJS c then c :: leadHexDigits cs else []

/-- Value of a hexadecimal digit. -/
def hexDigitVal (c : Char) : Nat :=
  if c.isDigit then c.toNat - 48
  else if 'a' ≤ c && c ≤ 'f' then c.toNat - 87
  else c.toNat - 55

/-- Hexadecimal value of a hex-digit string. -/
def hexToNat (ds : List Char) : Nat :=
  ds.foldl (fun a c => a * 16 + hexDigitVal c) 0

/-- Magnitude part of the ECMAScript parseInt algorithm with no radix
argument, applied after whitespace and sign: a leading `0x`/`0X` selects
radix 16 and the longest run of hex digits is read (NaN if empty);
otherwise the longest run of decimal digits is read (NaN if empty). -/
def parseIntCore (cs : List Char) : Option Nat :=
  match cs with
  | '0' :: 'x' :: t =>
      let ds := leadHexDigits t
      if ds.isEmpty then none else some (hexToNat ds)
  | '0' :: 'X' :: t =>
      let ds := leadHexDigits t
      if ds.isEmpty then none else some (hexToNat ds)
  | t =>
      let ds := leadDigits t
      if ds.isEmpty then none else some (digitsToNat ds)

/-- Model of JavaScript `parseInt(s)` with no radix argument, per the
ECMAScript algorithm: skip leading whitespace, read an optional sign,
then either a `0x`/`0X`-prefixed hexadecimal run or a decimal run;
`none` models NaN. So parseInt("12abc") is 12, parseInt("0x2") is 2,
parseInt("0x1A") is 26, and parseInt("0x") or parseInt("abc") is NaN. -/
def parseIntJS (s : String) : Option Int :=
  let cs := skipWs s.data
  match cs with
  | '-' :: t =>
      match parseIntCore t with
      | none => none
      | some n => some (-(n : Int))
  | '+' :: t =>
      match parseIntCore t with
      | none => none
      | some n => some ((n : Int))
  | t =>
      match parseIntCore t with
      | none => none
      | some n => some ((n : Int))

/-- JavaScript `Array.prototype.findIndex` over the registry: index of the
first element satisfying the predicate, `none` modelling -1. -/
def jsFindIndex (p : Book → Bool) : List Book → Option Nat
  | [] => none
  | b :: bs => if p b then some 0 else (jsFindIndex p bs).map (· + 1)

/-- Seed registry of src/index.js lines 8-38 (timestamps are the epoch
milliseconds of the `new Date(...)` literals). -/
def seedBooks : List Book :=
  [{ id := 1, title := "The Begining After The End", author := "James Vladimir",
     year := 2018, completed := JVal.vBool false, createdAt := 1736899200000 },
   { id := 2, title := "Clean Code", author := "Khine Akira",
     year := 2008, completed := JVal.vBool true, createdAt := 1708387200000 },
   { id := 3, title := "Saga of Tanya the Evil", author := "Saori Metsubayashi",
     year := 2008, completed := JVal.vBool true, createdAt := 1708387200000 }]

/-- The 404 body `\x7bsuccess:false, message:"Book not found"\x7d` used by
the get-by-id, update and delete handlers. -/
def notFoundResp : Response :=
  { status := 404, success := false, data := none, message := some "Book not found" }

/-- Handler of GET /books (src/index.js lines 41-44). -/
def getAllBooks (books : List Book) : Response :=
  { status := 200, success := true, data := some (RData.list books), message := none }

/-- Handler of GET /books/:id (src/index.js lines 47-59): parse the id,
find the first book with that id, 404 if none. -/
def getBookById (books : List Book) (idParam : String) : Response :=
  let id := parseIntJS idParam
  match books.find? (fun b => decide (id = some b.id)) with
  | none => notFoundResp
  | some b => { status := 200, success := true, data := some (RData.book b), message := none }

/-- Math.max over the ids of a nonempty registry (the `[]` branch is
unreachable: the caller tests `books.length > 0` first). -/
def maxBookId : List Book → Int
  | [] => 0
  | b :: bs => bs.foldl (fun m x => max m x.id) b.id

/-- The id assigned to a new book (src/index.js line 77):
max existing id + 1, or 1 when the registry is empty. -/
def newBookId (books : List Book) : Int :=
  if books.length > 0 then maxBookId books + 1 else 1

/-- Handler of POST /books (src/index.js lines 62-94): require truthy
title, author, year; require year > 1900; then append the new book and
answer 201. Returns the new registry together with the response. -/
def createBook (books : List Book) (now : Int) (title author : Option String)
    (year : Option Int) : List Book × Response :=
  if !truthyS title || !truthyS author || !truthyI year then
    (books, { status := 400, success := false, data := none,
              message := some "All fields (title, author, year) are required" })
  else if year.getD 0 ≤ 1900 then
    (books, { status := 400, success := false, data := none,
              message := some "Year must be greater than 1900" })
  else
    let newBook : Book :=
      { id := newBookId books, title := title.getD "", author := author.getD "",
        year := year.getD 0, completed := JVal.vBool false, createdAt := now }
    (books ++ [newBook],
     { status := 201, success := true, data := some (RData.book newBook), message := none })

/-- Handler of PUT /books/:id (src/index.js lines 97-125): find the book,
404 if absent; reject a truthy year ≤ 1900; then overwrite title, author
and year only when truthy, and completed whenever present (checked with
`typeof completed !== 'undefined'`); answer 200 with the updated book.
The inner `none` branch mirrors JavaScript indexing and is unreachable,
since findIndex only returns in-range indices. -/
def updateBook (books : List Book) (idParam : String) (title author : Option String)
    (year : Option Int) (completed : Option JVal) : List Book × Response :=
  let id := parseIntJS idParam
  match jsFindIndex (fun b => decide (id = some b.id)) books with
  | none => (books, notFoundResp)
  | some i =>
    if truthyI year && decide (year.getD 0 ≤ 1900) then
      (books, { status := 400, success := false, data := none,
                message := some "Year must be greater than 1900" })
    else
      match books[i]? with
      | none => (books, notFoundResp)
      | some b =>
        let b1 := if truthyS title then { b with title := title.getD "" } else b
        let b2 := if truthyS author then { b1 with author := author.getD "" } else b1
        let b3 := if truthyI year then { b2 with year := year.getD 0 } else b2
        let b4 := match completed with
                  | some v => { b3 with completed := v }
                  | none => b3
        (books.set i b4,
         { status := 200, success := true, data := some (RData.book b4),
           message := some "Book updated successfully" })

/-- Handler of DELETE /books/:id (src/index.js lines 128-145): find the
book, 404 if absent; otherwise splice it out and answer 200 with a
message and no data. -/
def deleteBook (books : List Book) (idParam : String) : List Book × Response :=
  let id := parseIntJS idParam
  match jsFindIndex (fun b => decide (id = some b.id)) books with
  | none => (books, notFoundResp)
  | some i =>
    (books.eraseIdx i,
     { status := 200, success := true, data := none, message := some "Book deleted successfully" })

/-- Handler of GET /books/completed (src/index.js lines 148-154): the
books whose completed field is strictly `=== true`, in registry order. -/
def getCompletedBooks (books : List Book) : Response :=
  { status := 200, success := true,
    data := some (RData.list (books.filter (fun b => decide (b.completed = JVal.vBool true)))),
    message := none }

/-- Handler of GET /books/search (src/index.js lines 157-176): require a
truthy title query, then case-insensitive substring match against each
book title. -/
def searchBooks (books : List Book) (titleQuery : Option String) : Response :=
  if !truthyS titleQuery then
    { status := 400, success := false, data := none,
      message := some "Title query parameter is required" }
  else
    let searchTerm := (titleQuery.getD "").toLower
    { status := 200, success := true,
      data := some (RData.list (books.filter
        (fun b => decide (searchTerm.data <:+: b.title.toLower.data)))),
      message := none }

/-- A segment of a route pattern: a literal segment or a `:name`
path parameter. -/
inductive Seg where
  | lit : String → Seg
  | par : String → Seg
  deriving Repr, DecidableEq

/-- Match a route pattern against the path segments, returning the bound
path parameters, as an Express router does for one route. -/
def matchSegs : List Seg → List String → Option (List (String × String))
  | [], [] => some []
  | Seg.lit s :: ps, x :: xs => if x = s then matchSegs ps xs else none
  | Seg.par n :: ps, x :: xs => (matchSegs ps xs).map (fun r => (n, x) :: r)
  | _, _ => none

/-- The four GET handlers of src/index.js. -/
inductive GetH where
  | allBooks
  | byId
  | completedList
  | searchTitle
  deriving Repr, DecidableEq

/-- The GET route table in the registration order of src/index.js:
`/books` (line 41), `/books/:id` (line 47), then `/books/completed`
(line 148) and `/books/search` (line 157) — the two literal routes are
registered after the `:id` pattern. -/
def getRouteTable : List (List Seg × GetH) :=
  [([Seg.lit "books"], GetH.allBooks),
   ([Seg.lit "books", Seg.par "id"], GetH.byId),
   ([Seg.lit "books", Seg.lit "completed"], GetH.completedList),
   ([Seg.lit "books", Seg.lit "search"], GetH.searchTitle)]

/-- First-match dispatch over a route table, as Express matches routes in
registration order. -/
def dispatch : List (List Seg × GetH) → List String → Option (GetH × List (String × String))
  | [], _ => none
  | (pat, h) :: rest, segs =>
    match matchSegs pat segs with
    | some ps => some (h, ps)
    | none => dispatch rest segs

/-- Value bound to a path parameter by the matcher ("" if unbound, which
does not occur for dispatched routes). -/
def paramVal (ps : List (String × String)) (n : String) : String :=
  match ps.find? (fun q => decide (q.1 = n)) with
  | some q => q.2
  | none => ""

/-- A GET request through the router: dispatch the path over the route
table of src/index.js, then run the selected handler. `none` means no
route matched (Express would 404 with its default handler). -/
def handleGet (books : List Book) (titleQuery : Option String) (segs : List String) :
    Option Response :=
  match dispatch getRouteTable segs with
  | none => none
  | some (GetH.allBooks, _) => some (getAllBooks books)
  | some (GetH.byId, ps) => some (getBookById books (paramVal ps "id"))
  | some (GetH.completedList, _) => some (getCompletedBooks books)
  | some (GetH.searchTitle, _) => some (searchBooks books titleQuery)

/-- Registry invariant: all stored ids are unique and positive. -/
def idsOk (books : List Book) : Prop :=
  (books.map Book.id).Nodup ∧ ∀ b ∈ books, 0 < b.id

example : parseIntJS "12abc" = some 12 := by decide
example : parseIntJS "completed" = none := by decide
example : newBookId seedBooks = 4 := by decide

/-! Helper lemmas about the embedded operations. -/

theorem jsFindIndex_eq_none (p : Book → Bool) :
    ∀ l : List Book, jsFindIndex p l = none ↔ ∀ b ∈ l, p b = false
  | [] => by simp [jsFindIndex]
  | b :: bs => by
    cases hp : p b with
    | true => simp [jsFindIndex, hp]
    | false => simp [jsFindIndex, hp, jsFindIndex_eq_none p bs]

theorem jsFindIndex_some (p : Book → Bool) :
    ∀ (l : List Book) (i : Nat), jsFindIndex p l = some i →
      i < l.length ∧ ∃ b, l[i]? = some b ∧ p b = true
  | [], i => by simp [jsFindIndex]
  | b :: bs, i => by
    cases hp : p b with
    | true =>
      intro h
      simp [jsFindIndex, hp] at h
      subst h
      exact ⟨Nat.succ_pos _, b, by simp, hp⟩
    | false =>
      intro h
      simp [jsFindIndex, hp] at h
      obtain ⟨j, hj, rfl⟩ := h
      obtain ⟨hlt, c, hc, hpc⟩ := jsFindIndex_some p bs j hj
      exact ⟨Nat.succ_lt_succ hlt, c, by simpa using hc, hpc⟩

theorem le_foldl_max_init : ∀ (xs : List Book) (m : Int),
    m ≤ xs.foldl (fun a y => max a y.id) m
  | [], _ => le_refl _
  | y :: ys, m =>
    le_trans (le_max_left m y.id) (le_foldl_max_init ys (max m y.id))

theorem le_foldl_max_mem : ∀ (xs : List Book) (m : Int) (b : Book), b ∈ xs →
    b.id ≤ xs.foldl (fun a y => max a y.id) m
  | [], _, _, h => absurd h (List.not_mem_nil _)
  | y :: ys, m, b, h => by
    rcases List.mem_cons.mp h with rfl | h
    · exact le_trans (le_max_right m b.id) (le_foldl_max_init ys (max m b.id))
    · exact le_foldl_max_mem ys (max m y.id) b h

theorem le_maxBookId (l : List Book) (b : Book) (h : b ∈ l) : b.id ≤ maxBookId l := by
  cases l with
  | nil => exact absurd h (List.not_mem_nil _)
  | cons x xs =>
    rcases List.mem_cons.mp h with rfl | h
    · exact le_foldl_max_init xs b.id
    · exact le_foldl_max_mem xs x.id b h

theorem maxBookId_pos (l : List Book) (hne : l ≠ []) (hp : ∀ b ∈ l, 0 < b.id) :
    0 < maxBookId l := by
  cases l with
  | nil => exact absurd rfl hne
  | cons x xs =>
    exact lt_of_lt_of_le (hp x (List.mem_cons_self x xs)) (le_foldl_max_init xs x.id)

theorem newBookId_gt (l : List Book) (b : Book) (h : b ∈ l) : b.id < newBookId l := by
  have hne : l ≠ [] := by rintro rfl; exact absurd h (List.not_mem_nil _)
  have hlen : 0 < l.length := List.length_pos.mpr hne
  unfold newBookId
  rw [if_pos hlen]
  exact lt_of_le_of_lt (le_maxBookId l b h) (lt_add_one _)

theorem set_id_eq : ∀ (l : List Book) (i : Nat) (b c : Book),
    l[i]? = some b → c.id = b.id → (l.set i c).map Book.id = l.map Book.id
  | [], i, b, c => by simp
  | x :: xs, 0, b, c => by
    intro hg hid
    simp at hg
    subst hg
    simp [hid]
  | x :: xs, i + 1, b, c => by
    intro hg hid
    simp at hg
    simp [set_id_eq xs i b c hg hid]

theorem eraseIdx_id_ne : ∀ (l : List Book) (i : Nat) (b : Book),
    l[i]? = some b → (l.map Book.id).Nodup →
    ∀ c ∈ l.eraseIdx i, c.id ≠ b.id
  | [], i, b => by simp
  | x :: xs, 0, b => by
    intro hg hnd c hc
    simp at hg
    subst hg
    simp [List.eraseIdx] at hc
    simp [List.nodup_cons] at hnd
    intro hid
    exact hnd.1 c hc hid
  | x :: xs, i + 1, b => by
    intro hg hnd c hc
    simp at hg
    simp [List.nodup_cons] at hnd
    simp [List.eraseIdx] at hc
    rcases hc with rfl | hc
    · have hbm : b ∈ xs := List.getElem?_mem hg
      intro hid
      exact hnd.1 b hbm (hid ▸ rfl)
    · exact eraseIdx_id_ne xs i b hg hnd.2 c hc

theorem find?_none_of_parse_none (books : List Book) :
    books.find? (fun b => decide ((none : Option Int) = some b.id)) = none :=
  List.find?_eq_none.mpr (fun b _ => by simp)

theorem getBookById_parse_none (books : List Book) (idParam : String)
    (h : parseIntJS idParam = none) : getBookById books idParam = notFoundResp := by
  unfold getBookById
  rw [h]
  simp only [find?_none_of_parse_none]

/-- C1: the claim says GET /books/completed answers 200 with the completed
sublist; but in src/index.js the route `/books/:id` (line 47) is registered
before `/books/completed` (line 148), so Express dispatches the request to
the get-by-id handler, `parseInt("completed")` is NaN, no book matches, and
the response is always 404 "Book not found" — for every registry state. -/
theorem get_books_completed_misrouted (books : List Book) (titleQuery : Option String) :
    handleGet books titleQuery ["books", "completed"] = some notFoundResp := by
  have hd : dispatch getRouteTable ["books", "completed"] =
      some (GetH.byId, [("id", "completed")]) := by decide
  unfold handleGet
  rw [hd]
  show some (getBookById books (paramVal [("id", "completed")] "id")) = some notFoundResp
  have hp : paramVal [("id", "completed")] "id" = "completed" := by decide
  rw [hp, getBookById_parse_none books "completed" (by decide)]

/-- C2: the claim says GET /books/search reaches the search handler (400
without a title query, 200 with the matching sublist otherwise); but in
src/index.js the route `/books/:id` (line 47) is registered before
`/books/search` (line 157), so Express dispatches the request to the
get-by-id handler, `parseInt("search")` is NaN, and the response is always
404 "Book not found", whatever the query string and registry state. -/
theorem get_books_search_misrouted (books : List Book) (titleQuery : Option String) :
    handleGet books titleQuery ["books", "search"] = some notFoundResp := by
  have hd : dispatch getRouteTable ["books", "search"] =
      some (GetH.byId, [("id", "search")]) := by decide
  unfold handleGet
  rw [hd]
  show some (getBookById books (paramVal [("id", "search")] "id")) = some notFoundResp
  have hp : paramVal [("id", "search")] "id" = "search" := by decide
  rw [hp, getBookById_parse_none books "search" (by decide)]

/-- C3: a create request with truthy title, author and year and year
greater than 1900 appends exactly one book at the end of the registry
(every other book keeps its position), with id = newBookId books (which is
max existing id + 1, or 1 when the registry is empty, the maximum being an
upper bound of all stored ids), completed = false, createdAt = now, and
the response is 201 with the new book as data. -/
theorem createBook_success (books : List Book) (now : Int) (t a : String) (y : Int)
    (ht : t ≠ "") (ha : a ≠ "") (hy : 1900 < y) :
    createBook books now (some t) (some a) (some y) =
      (books ++ [{ id := newBookId books, title := t, author := a, year := y,
                   completed := JVal.vBool false, createdAt := now }],
       { status := 201, success := true,
         data := some (RData.book
           { id := newBookId books, title := t, author := a, year := y,
             completed := JVal.vBool false, createdAt := now }),
         message := none }) ∧
    (books = [] → newBookId books = 1) ∧
    (books ≠ [] → newBookId books = maxBookId books + 1 ∧
      ∀ b ∈ books, b.id ≤ maxBookId books) := by
  have hy0 : y ≠ 0 := by omega
  refine ⟨?_, ?_, ?_⟩
  · simp [createBook, truthyS, truthyI, ht, ha, hy0, not_le.mpr hy]
  · rintro rfl
    rfl
  · intro hne
    refine ⟨?_, fun b hb => le_maxBookId books b hb⟩
    unfold newBookId
    rw [if_pos (List.length_pos.mpr hne)]

/-- C3 witness: creating a book on the seed registry with valid fields
appends it with id 4 = max(1,2,3)+1, completed false, createdAt = now. -/
theorem createBook_success_witness :
    createBook seedBooks 1700000000000 (some "X") (some "Y") (some 2000) =
      (seedBooks ++ [{ id := 4, title := "X", author := "Y", year := 2000,
                       completed := JVal.vBool false, createdAt := 1700000000000 }],
       { status := 201, success := true,
         data := some (RData.book
           { id := 4, title := "X", author := "Y", year := 2000,
             completed := JVal.vBool false, createdAt := 1700000000000 }),
         message := none }) :=
  (createBook_success seedBooks 1700000000000 "X" "Y" 2000
    (by decide) (by decide) (by decide)).1

/-- C4: create validates in order — if any of title, author, year is
missing or falsy the response is 400 "All fields (title, author, year)
are required" and the registry is unchanged; otherwise, if year ≤ 1900
the response is 400 "Year must be greater than 1900" and the registry is
unchanged; only when both checks pass is the book appended (status 201). -/
theorem createBook_validation (books : List Book) (now : Int)
    (title author : Option String) (year : Option Int) :
    ((truthyS title = false ∨ truthyS author = false ∨ truthyI year = false) →
      createBook books now title author year =
        (books, { status := 400, success := false, data := none,
                  message := some "All fields (title, author, year) are required" })) ∧
    (truthyS title = true → truthyS author = true → truthyI year = true →
      year.getD 0 ≤ 1900 →
      createBook books now title author year =
        (books, { status := 400, success := false, data := none,
                  message := some "Year must be greater than 1900" })) ∧
    (truthyS title = true → truthyS author = true → truthyI year = true →
      1900 < year.getD 0 →
      (createBook books now title author year).2.status = 201 ∧
      (createBook books now title author year).1 =
        books ++ [{ id := newBookId books, title := title.getD "",
                    author := author.getD "", year := year.getD 0,
                    completed := JVal.vBool false, createdAt := now }]) := by
  refine ⟨?_, ?_, ?_⟩
  · intro h
    rcases h with h | h | h <;> simp [createBook, h]
  · intro h1 h2 h3 h4
    simp [createBook, h1, h2, h3, h4]
  · intro h1 h2 h3 h4
    constructor <;> simp [createBook, h1, h2, h3, not_le.mpr h4]

/-- C4 witness: on the seed registry, year 1900 is rejected with the year
message, year 1901 is accepted with status 201, and a missing title is
rejected with the required-fields message. -/
theorem createBook_validation_witness :
    createBook seedBooks 0 (some "X") (some "Y") (some 1900) =
      (seedBooks, { status := 400, success := false, data := none,
                    message := some "Year must be greater than 1900" }) ∧
    (createBook seedBooks 0 (some "X") (some "Y") (some 1901)).2.status = 201 ∧
    createBook seedBooks 0 none (some "Y") (some 1901) =
      (seedBooks, { status := 400, success := false, data := none,
                    message := some "All fields (title, author, year) are required" }) :=
  ⟨(createBook_validation seedBooks 0 (some "X") (some "Y") (some 1900)).2.1
      (by decide) (by decide) (by decide) (by decide),
   ((createBook_validation seedBooks 0 (some "X") (some "Y") (some 1901)).2.2
      (by decide) (by decide) (by decide) (by decide)).1,
   (createBook_validation seedBooks 0 none (some "Y") (some 1901)).1
      (Or.inl (by decide))⟩

theorem updateBook_found_eq (books : List Book) (idParam : String)
    (title author : Option String) (year : Option Int) (completed : Option JVal)
    (i : Nat) (b : Book)
    (hfind : jsFindIndex (fun x => decide (parseIntJS idParam = some x.id)) books = some i)
    (hget : books[i]? = some b)
    (hok : (truthyI year && decide (year.getD 0 ≤ 1900)) = false) :
    updateBook books idParam title author year completed =
      (books.set i
         { id := b.id,
           title := if truthyS title then title.getD "" else b.title,
           author := if truthyS author then author.getD "" else b.author,
           year := if truthyI year then year.getD 0 else b.year,
           completed := completed.getD b.completed,
           createdAt := b.createdAt },
       { status := 200, success := true,
         data := some (RData.book
           { id := b.id,
             title := if truthyS title then title.getD "" else b.title,
             author := if truthyS author then author.getD "" else b.author,
             year := if truthyI year then year.getD 0 else b.year,
             completed := completed.getD b.completed,
             createdAt := b.createdAt }),
         message := some "Book updated successfully" }) := by
  simp only [updateBook, hfind, hok, Bool.false_eq_true, if_false, hget]
  cases completed <;> cases htt : truthyS title <;> cases hta : truthyS author <;>
    cases hty : truthyI year <;> simp [htt, hta, hty, Option.getD]

/-- C5: on an update of an existing book (found at index i), a truthy
year ≤ 1900 is rejected with 400 before any change; otherwise exactly the
book at i is replaced: title, author and year are overwritten only when
the supplied value is truthy (empty string or 0 leaves the stored field),
completed is overwritten exactly when present (including false), id and
createdAt are never mutated, and every other index of the registry is
unchanged. -/
theorem updateBook_frame (books : List Book) (idParam : String)
    (title author : Option String) (year : Option Int) (completed : Option JVal)
    (i : Nat) (b : Book)
    (hfind : jsFindIndex (fun x => decide (parseIntJS idParam = some x.id)) books = some i)
    (hget : books[i]? = some b) :
    (truthyI year = true → year.getD 0 ≤ 1900 →
      updateBook books idParam title author year completed =
        (books, { status := 400, success := false, data := none,
                  message := some "Year must be greater than 1900" })) ∧
    ((truthyI year = true → 1900 < year.getD 0) →
      updateBook books idParam title author year completed =
        (books.set i
           { id := b.id,
             title := if truthyS title then title.getD "" else b.title,
             author := if truthyS author then author.getD "" else b.author,
             year := if truthyI year then year.getD 0 else b.year,
             completed := completed.getD b.completed,
             createdAt := b.createdAt },
         { status := 200, success := true,
           data := some (RData.book
             { id := b.id,
               title := if truthyS title then title.getD "" else b.title,
               author := if truthyS author then author.getD "" else b.author,
               year := if truthyI year then year.getD 0 else b.year,
               completed := completed.getD b.completed,
               createdAt := b.createdAt }),
           message := some "Book updated successfully" }) ∧
      (∀ j, j ≠ i →
        ((updateBook books idParam title author year completed).1)[j]? = books[j]?)) := by
  constructor
  · intro h1 h2
    simp only [updateBook, hfind, h1, decide_eq_true_eq]
    simp [h2]
  · intro hok
    have hcond : (truthyI year && decide (year.getD 0 ≤ 1900)) = false := by
      cases hy : truthyI year with
      | false => simp
      | true => simp [not_le.mpr (hok hy)]
    have hmain := updateBook_found_eq books idParam title author year completed i b
      hfind hget hcond
    refine ⟨hmain, fun j hj => ?_⟩
    rw [hmain]
    exact List.getElem?_set_ne hj.symm

/-- C5 witness: updating book 1 of the seed registry with only
completed:false changes only that book's completed field and answers 200
with the updated book. -/
theorem updateBook_frame_witness :
    updateBook seedBooks "1" none none none (some (JVal.vBool false)) =
      (seedBooks.set 0
         { id := 1, title := "The Begining After The End", author := "James Vladimir",
           year := 2018, completed := JVal.vBool false, createdAt := 1736899200000 },
       { status := 200, success := true,
         data := some (RData.book
           { id := 1, title := "The Begining After The End", author := "James Vladimir",
             year := 2018, completed := JVal.vBool false, createdAt := 1736899200000 }),
         message := some "Book updated successfully" }) :=
  ((updateBook_frame seedBooks "1" none none none (some (JVal.vBool false)) 0
      { id := 1, title := "The Begining After The End", author := "James Vladimir",
        year := 2018, completed := JVal.vBool false, createdAt := 1736899200000 }
      (by decide) (by decide)).2 (by decide)).1

/-- C6: when the parsed id matches no book, get-by-id, update and delete
all answer exactly 404 with success:false and message "Book not found"
and leave the registry unchanged; and whenever create, update or delete
responds with success:false (any NotFound or InvalidInput failure), the
registry is left completely unchanged. -/
theorem notFound_and_failure_frame (books : List Book) (idParam : String)
    (title author : Option String) (year : Option Int) (completed : Option JVal) (now : Int) :
    ((∀ b ∈ books, parseIntJS idParam ≠ some b.id) →
      getBookById books idParam = notFoundResp ∧
      updateBook books idParam title author year completed = (books, notFoundResp) ∧
      deleteBook books idParam = (books, notFoundResp)) ∧
    ((createBook books now title author year).2.success = false →
      (createBook books now title author year).1 = books) ∧
    ((updateBook books idParam title author year completed).2.success = false →
      (updateBook books idParam title author year completed).1 = books) ∧
    ((deleteBook books idParam).2.success = false →
      (deleteBook books idParam).1 = books) := by
  refine ⟨?_, ?_, ?_, ?_⟩
  · intro hno
    have hf : books.find? (fun b => decide (parseIntJS idParam = some b.id)) = none :=
      List.find?_eq_none.mpr (fun b hb => by simp [hno b hb])
    have hfi : jsFindIndex (fun b => decide (parseIntJS idParam = some b.id)) books = none :=
      (jsFindIndex_eq_none _ books).mpr (fun b hb => by simp [hno b hb])
    refine ⟨?_, ?_, ?_⟩
    · unfold getBookById
      simp only [hf]
    · unfold updateBook
      simp only [hfi]
    · unfold deleteBook
      simp only [hfi]
  · intro hs
    by_cases h1 : (!truthyS title || !truthyS author || !truthyI year) = true
    · simp [createBook, h1]
    · by_cases h2 : year.getD 0 ≤ 1900
      · simp [createBook, h1, h2]
      · exfalso
        simp [createBook, h1, h2] at hs
  · intro hs
    cases hfi : jsFindIndex (fun b => decide (parseIntJS idParam = some b.id)) books with
    | none => simp [updateBook, hfi]
    | some i =>
      by_cases hc : (truthyI year && decide (year.getD 0 ≤ 1900)) = true
      · simp [updateBook, hfi, hc]
      · cases hg : books[i]? with
        | none => simp [updateBook, hfi, hc, hg]
        | some b =>
          exfalso
          simp [updateBook, hfi, hc, hg] at hs
  · intro hs
    cases hfi : jsFindIndex (fun b => decide (parseIntJS idParam = some b.id)) books with
    | none => simp [deleteBook, hfi]
    | some i =>
      exfalso
      simp [deleteBook, hfi] at hs

/-- C6 witness: id 99 matches no seed book: get-by-id, update and delete
all answer the 404 body and leave the seed registry unchanged. -/
theorem notFound_and_failure_frame_witness :
    getBookById seedBooks "99" = notFoundResp ∧
    updateBook seedBooks "99" none none none none = (seedBooks, notFoundResp) ∧
    deleteBook seedBooks "99" = (seedBooks, notFoundResp) :=
  (notFound_and_failure_frame seedBooks "99" none none none none 0).1 (by decide)

/-- C7: deleting an existing book (found at index i) removes exactly that
book — the new registry is the books before i followed by the books after
i, so the relative order of survivors is preserved — the count drops by
exactly one, the response is 200 with a message and no data, and a
subsequent get-by-id with the same id parameter answers 404 (the registry
ids being unique). -/
theorem deleteBook_success (books : List Book) (idParam : String) (i : Nat)
    (hfind : jsFindIndex (fun b => decide (parseIntJS idParam = some b.id)) books = some i)
    (hnodup : (books.map Book.id).Nodup) :
    deleteBook books idParam =
      (books.take i ++ books.drop (i + 1),
       { status := 200, success := true, data := none,
         message := some "Book deleted successfully" }) ∧
    (deleteBook books idParam).1.length + 1 = books.length ∧
    getBookById (deleteBook books idParam).1 idParam = notFoundResp := by
  obtain ⟨hlt, b, hget, hpb⟩ := jsFindIndex_some _ books i hfind
  have hid : parseIntJS idParam = some b.id := of_decide_eq_true hpb
  have hdel : deleteBook books idParam =
      (books.eraseIdx i,
       { status := 200, success := true, data := none,
         message := some "Book deleted successfully" }) := by
    unfold deleteBook
    simp only [hfind]
  have hne : ∀ c ∈ books.eraseIdx i, c.id ≠ b.id := eraseIdx_id_ne books i b hget hnodup
  refine ⟨?_, ?_, ?_⟩
  · rw [hdel, List.eraseIdx_eq_take_drop_succ]
  · rw [hdel]
    exact List.length_eraseIdx_add_one hlt
  · rw [hdel]
    have hf : (books.eraseIdx i).find?
        (fun c => decide (parseIntJS idParam = some c.id)) = none :=
      List.find?_eq_none.mpr (fun c hc => by
        simp [hid]
        intro h
        exact hne c hc h.symm)
    unfold getBookById
    simp only [hf]

/-- C7 witness: deleting id 2 from the seed registry keeps books 1 and 3
in order, answers 200 with no data, and a following GET of id 2 is 404. -/
theorem deleteBook_success_witness :
    deleteBook seedBooks "2" =
      (seedBooks.take 1 ++ seedBooks.drop 2,
       { status := 200, success := true, data := none,
         message := some "Book deleted successfully" }) ∧
    getBookById (deleteBook seedBooks "2").1 "2" = notFoundResp :=
  ⟨(deleteBook_success seedBooks "2" 1 (by decide) (by decide)).1,
   (deleteBook_success seedBooks "2" 1 (by decide) (by decide)).2.2⟩

theorem newBookId_pos (l : List Book) (hp : ∀ b ∈ l, 0 < b.id) : 0 < newBookId l := by
  unfold newBookId
  by_cases hl : l.length > 0
  · rw [if_pos hl]
    have hne : l ≠ [] := List.length_pos.mp hl
    have := maxBookId_pos l hne hp
    omega
  · rw [if_neg hl]
    norm_num

theorem newBookId_not_mem (l : List Book) : newBookId l ∉ l.map Book.id := by
  intro h
  rcases List.mem_map.mp h with ⟨b, hb, hid⟩
  have := newBookId_gt l b hb
  omega

/-- C8: the id invariant — unique positive ids — holds of the three seed
records and is preserved by every mutating operation: create preserves it
(appending, on success, exactly one book whose id is newBookId books =
max existing id + 1 or 1 when empty, recomputed from the current state),
update never changes any id (the id sequence of the registry is
untouched), and delete preserves it. -/
theorem registry_id_invariant :
    idsOk seedBooks ∧
    (∀ (books : List Book) (now : Int) (title author : Option String) (year : Option Int),
      idsOk books → idsOk (createBook books now title author year).1) ∧
    (∀ (books : List Book) (now : Int) (title author : Option String) (year : Option Int),
      (createBook books now title author year).2.status = 201 →
      ∃ nb : Book, nb.id = newBookId books ∧
        (createBook books now title author year).1 = books ++ [nb]) ∧
    (∀ (books : List Book) (idParam : String) (title author : Option String)
       (year : Option Int) (completed : Option JVal),
      ((updateBook books idParam title author year completed).1).map Book.id =
        books.map Book.id) ∧
    (∀ (books : List Book) (idParam : String),
      idsOk books → idsOk (deleteBook books idParam).1) := by
  refine ⟨⟨by decide, by decide⟩, ?_, ?_, ?_, ?_⟩
  · intro books now title author year h
    by_cases h1 : (!truthyS title || !truthyS author || !truthyI year) = true
    · simpa [createBook, h1] using h
    · by_cases h2 : year.getD 0 ≤ 1900
      · simpa [createBook, h1, h2] using h
      · have hstate : (createBook books now title author year).1 =
            books ++ [{ id := newBookId books, title := title.getD "",
                        author := author.getD "", year := year.getD 0,
                        completed := JVal.vBool false, createdAt := now }] := by
          simp [createBook, h1, h2]
        rw [hstate]
        constructor
        · rw [List.map_append]
          rw [List.nodup_append]
          refine ⟨h.1, List.nodup_singleton _, ?_⟩
          intro a ha hb
          simp at hb
          subst hb
          exact newBookId_not_mem books ha
        · intro b hb
          rcases List.mem_append.mp hb with hb | hb
          · exact h.2 b hb
          · simp at hb
            subst hb
            exact newBookId_pos books h.2
  · intro books now title author year hs
    by_cases h1 : (!truthyS title || !truthyS author || !truthyI year) = true
    · exfalso
      simp [createBook, h1] at hs
    · by_cases h2 : year.getD 0 ≤ 1900
      · exfalso
        simp [createBook, h1, h2] at hs
      · refine ⟨{ id := newBookId books, title := title.getD "",
                  author := author.getD "", year := year.getD 0,
                  completed := JVal.vBool false, createdAt := now }, rfl, ?_⟩
        simp [createBook, h1, h2]
  · intro books idParam title author year completed
    cases hfi : jsFindIndex (fun b => decide (parseIntJS idParam = some b.id)) books with
    | none => simp [updateBook, hfi]
    | some i =>
      by_cases hc : (truthyI year && decide (year.getD 0 ≤ 1900)) = true
      · simp [updateBook, hfi, hc]
      · cases hg : books[i]? with
        | none => simp [updateBook, hfi, hc, hg]
        | some b =>
          rw [updateBook_found_eq books idParam title author year completed i b hfi hg
            (Bool.not_eq_true _ ▸ hc)]
          exact set_id_eq books i b _ hg rfl
  · intro books idParam h
    cases hfi : jsFindIndex (fun b => decide (parseIntJS idParam = some b.id)) books with
    | none => simpa [deleteBook, hfi] using h
    | some i =>
      have hstate : (deleteBook books idParam).1 = books.eraseIdx i := by
        simp [deleteBook, hfi]
      rw [hstate]
      have hsub : List.Sublist ((books.eraseIdx i).map Book.id) (books.map Book.id) :=
        (List.eraseIdx_sublist books i).map Book.id
      constructor
      · exact h.1.sublist hsub
      · intro b hb
        exact h.2 b ((List.eraseIdx_sublist books i).subset hb)

/-- C8 witness: the invariant holds of the seed registry and is kept by a
concrete create and a concrete delete on it. -/
theorem registry_id_invariant_witness :
    idsOk (createBook seedBooks 0 (some "X") (some "Y") (some 2000)).1 ∧
    idsOk (deleteBook seedBooks "2").1 :=
  ⟨registry_id_invariant.2.1 seedBooks 0 (some "X") (some "Y") (some 2000)
      ⟨by decide, by decide⟩,
   registry_id_invariant.2.2.2.2 seedBooks "2" ⟨by decide, by decide⟩⟩

theorem digit_not_ws (c : Char) (h : c.isDigit = true) : c.isWhitespace = false := by
  have h1 : c ≠ ' ' := by rintro rfl; revert h; decide
  have h2 : c ≠ '\t' := by rintro rfl; revert h; decide
  have h3 : c ≠ '\r' := by rintro rfl; revert h; decide
  have h4 : c ≠ '\n' := by rintro rfl; revert h; decide
  simp [Char.isWhitespace, h1, h2, h3, h4]

theorem digit_ne_minus (c : Char) (h : c.isDigit = true) : c ≠ '-' := by
  rintro rfl; revert h; decide

theorem digit_ne_plus (c : Char) (h : c.isDigit = true) : c ≠ '+' := by
  rintro rfl; revert h; decide

theorem parseIntCore_digit (c : Char) (cs : List Char) (h : c.isDigit = true)
    (hx : ¬(c = '0' ∧ (cs[0]? = some 'x' ∨ cs[0]? = some 'X'))) :
    parseIntCore (c :: cs) ≠ none := by
  have hld : leadDigits (c :: cs) = c :: leadDigits cs := by
    simp [leadDigits, h]
  unfold parseIntCore
  split
  · next t heq =>
      exfalso
      injection heq with h1 h2
      subst h2
      exact hx ⟨h1, Or.inl (by simp)⟩
  · next t heq =>
      exfalso
      injection heq with h1 h2
      subst h2
      exact hx ⟨h1, Or.inr (by simp)⟩
  · simp [hld]

theorem parseIntJS_cons_digit (c : Char) (cs : List Char) (h : c.isDigit = true)
    (hx : ¬(c = '0' ∧ (cs[0]? = some 'x' ∨ cs[0]? = some 'X'))) :
    parseIntJS (String.mk (c :: cs)) ≠ none := by
  have hws : skipWs (c :: cs) = c :: cs := by
    simp [skipWs, digit_not_ws c h]
  have hcore := parseIntCore_digit c cs h hx
  unfold parseIntJS
  show (match skipWs (String.mk (c :: cs)).data with
    | '-' :: t =>
        match parseIntCore t with
        | none => none
        | some n => some (-(n : Int))
    | '+' :: t =>
        match parseIntCore t with
        | none => none
        | some n => some ((n : Int))
    | t =>
        match parseIntCore t with
        | none => none
        | some n => some ((n : Int))) ≠ none
  rw [show (String.mk (c :: cs)).data = c :: cs from rfl, hws]
  split
  · next t heq =>
      exfalso
      injection heq with h1 h2
      exact digit_ne_minus c h h1
  · next t heq =>
      exfalso
      injection heq with h1 h2
      exact digit_ne_plus c h h1
  · cases hpc : parseIntCore (c :: cs) with
    | none => exact absurd hpc hcore
    | some n => simp [hpc]

theorem getBookById_parse_congr (books : List Book) (s1 s2 : String)
    (h : parseIntJS s1 = parseIntJS s2) : getBookById books s1 = getBookById books s2 := by
  unfold getBookById
  rw [h]

theorem updateBook_parse_congr (books : List Book) (s1 s2 : String)
    (title author : Option String) (year : Option Int) (completed : Option JVal)
    (h : parseIntJS s1 = parseIntJS s2) :
    updateBook books s1 title author year completed =
      updateBook books s2 title author year completed := by
  unfold updateBook
  rw [h]

theorem deleteBook_parse_congr (books : List Book) (s1 s2 : String)
    (h : parseIntJS s1 = parseIntJS s2) : deleteBook books s1 = deleteBook books s2 := by
  unfold deleteBook
  rw [h]

/-- C9 counterexample: the claim that a digits-then-non-digits segment
operates on its decimal numeric prefix, and that only a segment with no
leading digits parses to NaN, is false of parseInt: the segment "0x"
starts with the digit 0 yet parses to NaN, and the segment "0x2"
(decimal numeric prefix 0) is parsed as hexadecimal 2, so the handlers
operate on book 2 of the seed registry, not on id 0. -/
theorem parseInt_hex_counterexample :
    parseIntJS "0x" = none ∧
    Char.isDigit '0' = true ∧
    parseIntJS "0x2" = some 2 ∧
    parseIntJS "0x2" ≠ some 0 ∧
    getBookById seedBooks "0x2" = getBookById seedBooks "2" := by
  refine ⟨by decide, by decide, by decide, by decide, ?_⟩
  exact getBookById_parse_congr seedBooks "0x2" "2" (by decide)

/-- C9 (amended): the id path segment is parsed with parseInt. A segment
of decimal digits followed by non-digits that does not start with the
hexadecimal prefix 0x/0X is treated as the id of its decimal numeric
prefix: "12abc" is read as 12 and get-by-id, update and delete behave on
it exactly as on "12". A 0x/0X-prefixed segment is read as hexadecimal:
"0x2" parses to 2 (the handlers treat it as id 2), while "0x", having no
hex digits, parses to NaN although it starts with a digit. A segment
whose first character is a decimal digit and which is not 0x/0X-prefixed
never parses to NaN; and a segment that parses to NaN matches no book,
so get-by-id answers 404. -/
theorem parseInt_numeric_head (books : List Book) (title author : Option String)
    (year : Option Int) (completed : Option JVal) :
    parseIntJS "12abc" = some 12 ∧
    getBookById books "12abc" = getBookById books "12" ∧
    updateBook books "12abc" title author year completed =
      updateBook books "12" title author year completed ∧
    deleteBook books "12abc" = deleteBook books "12" ∧
    parseIntJS "0x2" = some 2 ∧
    getBookById books "0x2" = getBookById books "2" ∧
    parseIntJS "0x" = none ∧
    (∀ (c : Char) (cs : List Char), c.isDigit = true →
      ¬(c = '0' ∧ (cs[0]? = some 'x' ∨ cs[0]? = some 'X')) →
      parseIntJS (String.mk (c :: cs)) ≠ none) ∧
    (∀ s : String, parseIntJS s = none → getBookById books s = notFoundResp) := by
  have hp : parseIntJS "12abc" = parseIntJS "12" := by decide
  have hpx : parseIntJS "0x2" = parseIntJS "2" := by decide
  exact ⟨by decide,
    getBookById_parse_congr books "12abc" "12" hp,
    updateBook_parse_congr books "12abc" "12" title author year completed hp,
    deleteBook_parse_congr books "12abc" "12" hp,
    by decide,
    getBookById_parse_congr books "0x2" "2" hpx,
    by decide,
    parseIntJS_cons_digit,
    fun s hs => getBookById_parse_none books s hs⟩

/-- C9 witness: a digit-headed segment without the hex prefix parses to
an integer, and a digit-free segment parses to NaN and yields 404 on the
seed registry. -/
theorem parseInt_numeric_head_witness :
    parseIntJS (String.mk ('1' :: ['z'])) ≠ none ∧
    getBookById seedBooks "zz" = notFoundResp :=
  ⟨(parseInt_numeric_head seedBooks none none none none).2.2.2.2.2.2.2.1 '1' ['z']
      (by decide) (by decide),
   (parseInt_numeric_head seedBooks none none none none).2.2.2.2.2.2.2.2 "zz" (by decide)⟩

/-- C10: update performs no type validation on completed — any defined
payload value (boolean or not) is stored verbatim into the book's
completed field — and a book whose completed value is not exactly the
boolean true is excluded from the /books/completed result, which filters
with a strict === true comparison. -/
theorem update_completed_untyped (books : List Book) (idParam : String)
    (i : Nat) (b : Book) (v : JVal)
    (hfind : jsFindIndex (fun x => decide (parseIntJS idParam = some x.id)) books = some i)
    (hget : books[i]? = some b) :
    ((updateBook books idParam none none none (some v)).1)[i]? =
      some { b with completed := v } ∧
    (updateBook books idParam none none none (some v)).2 =
      { status := 200, success := true,
        data := some (RData.book { b with completed := v }),
        message := some "Book updated successfully" } ∧
    (v ≠ JVal.vBool true →
      ∀ L : List Book,
        (getCompletedBooks ((updateBook books idParam none none none (some v)).1)).data =
          some (RData.list L) →
        { b with completed := v } ∉ L) := by
  have hok : (truthyI (none : Option Int) &&
      decide ((none : Option Int).getD 0 ≤ 1900)) = false := by decide
  have hmain := updateBook_found_eq books idParam none none none (some v) i b hfind hget hok
  have hlt : i < books.length := by
    rcases List.getElem?_eq_some.mp hget with ⟨hl, _⟩
    exact hl
  refine ⟨?_, ?_, ?_⟩
  · rw [hmain]
    exact List.getElem?_set_eq_of_lt _ hlt
  · rw [hmain]
    rfl
  · intro hv L hL
    rw [hmain] at hL
    unfold getCompletedBooks at hL
    simp only [Option.some.injEq, RData.list.injEq] at hL
    rw [← hL]
    intro hmem
    have hpred := (List.mem_filter.mp hmem).2
    simp only [decide_eq_true_eq] at hpred
    exact hv hpred

/-- C10 witness: updating book 1 of the seed registry with the string
payload completed:"yes" stores the string verbatim in the registry. -/
theorem update_completed_untyped_witness :
    ((updateBook seedBooks "1" none none none (some (JVal.vStr "yes"))).1)[0]? =
      some { id := 1, title := "The Begining After The End", author := "James Vladimir",
             year := 2018, completed := JVal.vStr "yes", createdAt := 1736899200000 } :=
  (update_completed_untyped seedBooks "1" 0
    { id := 1, title := "The Begining After The End", author := "James Vladimir",
      year := 2018, completed := JVal.vBool false, createdAt := 1736899200000 }
    (JVal.vStr "yes") (by decide) (by decide)).1
